import Mathlib

/-!
Verification development for the Music-Similarity ingestion and ranking
pipeline (src/add_song.py together with the table definitions in
src/backend/models.py).

The relational catalog is modelled as lists of rows with explicit
autoincrement counters. SQLAlchemy session semantics are made explicit:
queries inside store_in_database see flushed rows; the early return on a
duplicate track leaves the session uncommitted, and closing the session
rolls the flushed inserts back, so the caller observes the original
catalog state. Numeric feature values are modelled as rationals in the
catalog and are mapped into the reals for the similarity computation.
-/

namespace MusicSim

/-- Row of the artists table (class Artist in backend/models.py). -/
structure ArtistRow where
  id : Nat
  name : String
  spotify_id : Option String
deriving DecidableEq

/-- Row of the albums table (class Album in backend/models.py). -/
structure AlbumRow where
  id : Nat
  name : String
  artist_id : Nat
  spotify_id : Option String
deriving DecidableEq

/-- Row of the tracks table (class Track in backend/models.py). -/
structure TrackRow where
  id : Nat
  name : String
  artist_id : Nat
  album_id : Nat
  spotify_id : Option String
  preview_url : Option String
deriving DecidableEq

/-- Row of the audio_features table (class AudioFeature in backend/models.py). -/
structure AudioFeatureRow where
  id : Nat
  track_id : Nat
  energy : ℚ
  valence : ℚ
  tempo : ℚ
  danceability : ℚ
deriving DecidableEq

/-- The whole relational catalog: one list per table, in insertion order,
plus the autoincrement counter of each primary key. -/
structure DB where
  artists : List ArtistRow
  albums : List AlbumRow
  tracks : List TrackRow
  audio_features : List AudioFeatureRow
  next_artist_id : Nat
  next_album_id : Nat
  next_track_id : Nat
  next_feature_id : Nat
deriving DecidableEq

/-- The catalog produced by create_db.py: every table empty, ids starting at 1. -/
def DB.empty : DB := ⟨[], [], [], [], 1, 1, 1, 1⟩

/-- Metadata returned by search_spotify in add_song.py. The spotify_id is
optional here because the store treats it as a nullable column; the
filter_by comparison on a null value matches rows whose column is null. -/
structure TrackInfo where
  name : String
  artist : String
  album : String
  spotify_id : Option String
deriving DecidableEq

/-- Feature record returned by extract_features in add_song.py. -/
structure Features where
  tempo : ℚ
  energy : ℚ
  danceability : ℚ
  valence : ℚ
deriving DecidableEq

/-- The ARTIST block of store_in_database: query Artist filtered by name,
take the first row, and if none exists insert a new row and flush to
obtain its id. -/
def upsert_artist (name : String) (db : DB) : Nat × DB :=
  match db.artists.find? (fun a => a.name == name) with
  | some a => (a.id, db)
  | none =>
      (db.next_artist_id,
        { db with
            artists := db.artists ++ [⟨db.next_artist_id, name, none⟩],
            next_artist_id := db.next_artist_id + 1 })

/-- The ALBUM block of store_in_database: query Album filtered by name and
artist_id, take the first row, and if none exists insert and flush. -/
def upsert_album (name : String) (artist_id : Nat) (db : DB) : Nat × DB :=
  match db.albums.find? (fun al => al.name == name && al.artist_id == artist_id) with
  | some al => (al.id, db)
  | none =>
      (db.next_album_id,
        { db with
            albums := db.albums ++ [⟨db.next_album_id, name, artist_id, none⟩],
            next_album_id := db.next_album_id + 1 })

/-- The function store_in_database of add_song.py. Returns the track id
together with the catalog state visible after the session is closed.
On the duplicate-track path the function returns before commit, so the
session rollback on close discards the flushed artist and album inserts
and the original catalog state is returned unchanged. -/
def store_in_database (track_info : TrackInfo) (features : Features) (db : DB) :
    Option Nat × DB :=
  let a := upsert_artist track_info.artist db
  let b := upsert_album track_info.album a.1 a.2
  match b.2.tracks.find? (fun t => t.spotify_id == track_info.spotify_id) with
  | some t => (some t.id, db)
  | none =>
      let tid := b.2.next_track_id
      let db3 : DB := { b.2 with
        tracks := b.2.tracks ++
          [⟨tid, track_info.name, a.1, b.1, track_info.spotify_id, none⟩],
        next_track_id := tid + 1 }
      let db4 : DB := { db3 with
        audio_features := db3.audio_features ++
          [⟨db3.next_feature_id, tid, features.energy, features.valence,
            features.tempo, features.danceability⟩],
        next_feature_id := db3.next_feature_id + 1 }
      (some tid, db4)

/-- Write boundaries inside store_in_database at which the backing store
can raise (StoreUnavailable): the flush after each insert, and the final
commit. The value noFail models a run in which every write succeeds. -/
inductive FailPoint where
  | artistFlush
  | albumFlush
  | trackFlush
  | commit
  | noFail
deriving DecidableEq

/-- Environment model of store_in_database under write failures: the run
proceeds exactly as store_in_database, but if the designated write
boundary is reached the exception handler runs db.rollback and returns
None, so the caller observes the original catalog state. -/
def store_in_database_at (fp : FailPoint) (track_info : TrackInfo)
    (features : Features) (db : DB) : Option Nat × DB :=
  if fp = FailPoint.artistFlush then (none, db) else
  let a := upsert_artist track_info.artist db
  if fp = FailPoint.albumFlush then (none, db) else
  let b := upsert_album track_info.album a.1 a.2
  match b.2.tracks.find? (fun t => t.spotify_id == track_info.spotify_id) with
  | some t => (some t.id, db)
  | none =>
      if fp = FailPoint.trackFlush then (none, db) else
      let tid := b.2.next_track_id
      let db3 : DB := { b.2 with
        tracks := b.2.tracks ++
          [⟨tid, track_info.name, a.1, b.1, track_info.spotify_id, none⟩],
        next_track_id := tid + 1 }
      let db4 : DB := { db3 with
        audio_features := db3.audio_features ++
          [⟨db3.next_feature_id, tid, features.energy, features.valence,
            features.tempo, features.danceability⟩],
        next_feature_id := db3.next_feature_id + 1 }
      if fp = FailPoint.commit then (none, db) else
      (some tid, db4)

/-- Dot product of two 4-component real vectors. -/
noncomputable def dot4 (a b : Fin 4 → ℝ) : ℝ := ∑ i, a i * b i

/-- Euclidean norm of a 4-component real vector. -/
noncomputable def norm4 (a : Fin 4 → ℝ) : ℝ := Real.sqrt (dot4 a a)

/-- The cosine_similarity of sklearn.metrics.pairwise as called in
find_similar_songs: each vector is divided by its Euclidean norm, with a
zero norm replaced by one so that an all-zero row stays zero instead of
raising, and the normalized vectors are multiplied pointwise and summed. -/
noncomputable def cosine_similarity (a b : Fin 4 → ℝ) : ℝ :=
  dot4 a b / ((if norm4 a = 0 then 1 else norm4 a) * (if norm4 b = 0 then 1 else norm4 b))

/-- The feature vector that find_similar_songs builds from a stored
feature row: energy, valence, tempo divided by 200, danceability, in
this order, mapped into the reals and with no clamping. -/
noncomputable def toVector (f : AudioFeatureRow) : Fin 4 → ℝ :=
  ![(f.energy : ℝ), (f.valence : ℝ), (f.tempo : ℝ) / 200, (f.danceability : ℝ)]

/-- One entry of the list that find_similar_songs returns: the names used
for display, the similarity score, and the snapshot of the stored
feature values. -/
structure SimEntry where
  track : String
  artist : String
  similarity : ℝ
  energy : ℚ
  valence : ℚ
  tempo : ℚ
  danceability : ℚ

/-- Loop body of find_similar_songs: for each corpus feature row, build
its vector, score it against the query vector and look up the track and
artist rows for display. The lookups dereference foreign keys with no
null check, so a dangling reference makes the whole call fail, which the
Option models. -/
noncomputable def build_entries (db : DB) (current_vector : Fin 4 → ℝ) :
    List AudioFeatureRow → Option (List SimEntry)
  | [] => some []
  | f :: rest => do
      let t ← db.tracks.find? (fun tr => tr.id == f.track_id)
      let ar ← db.artists.find? (fun a => a.id == t.artist_id)
      let entries ← build_entries db current_vector rest
      some (⟨t.name, ar.name, cosine_similarity current_vector (toVector f),
             f.energy, f.valence, f.tempo, f.danceability⟩ :: entries)

/-- The slice similarities[:limit] taken at the end of
find_similar_songs. -/
def top_k (ranked : List SimEntry) (k : Nat) : List SimEntry :=
  ranked.take k

/-- The function find_similar_songs of add_song.py: fetch the query
feature row, returning the empty list when it is absent or when no other
feature row exists; otherwise score every other feature row against the
query vector, sort by similarity descending with Python's stable sort,
and return the first limit entries. -/
noncomputable def find_similar_songs (db : DB) (track_id : Nat) (limit : Nat := 5) :
    Option (List SimEntry) :=
  match db.audio_features.find? (fun f => f.track_id == track_id) with
  | none => some []
  | some current =>
      let all_features := db.audio_features.filter (fun f => !(f.track_id == track_id))
      if all_features.isEmpty then some [] else do
        let sims ← build_entries db (toVector current) all_features
        some (top_k (sims.mergeSort (fun x y => decide (y.similarity ≤ x.similarity))) limit)

/-- Results of the three external collaborators consulted by add_song:
search_spotify, download_audio and extract_features. Each is None when
the collaborator fails or finds nothing. -/
structure External where
  search : Option TrackInfo
  download : Option String
  extract : Option Features
deriving DecidableEq

/-- Outcome of one add_song run: the catalog state afterwards, whether
feature extraction was performed during the run, and the track id the
store step returned, if the run got that far. -/
structure AddSongResult where
  db : DB
  extracted : Bool
  stored_track : Option Nat
deriving DecidableEq

/-- The orchestrator add_song of add_song.py: search, then download, then
extract, then store; each stage aborts the run when its collaborator
returns nothing. The trailing find_similar_songs call only reads the
catalog, so it does not appear in the state transition. -/
def add_song (ext : External) (db : DB) : AddSongResult :=
  match ext.search with
  | none => ⟨db, false, none⟩
  | some track_info =>
      match ext.download with
      | none => ⟨db, false, none⟩
      | some _ =>
          match ext.extract with
          | none => ⟨db, true, none⟩
          | some features =>
              let r := store_in_database track_info features db
              ⟨r.2, true, r.1⟩

/-- Referential integrity of the catalog: every Track row references an
existing Artist row and an existing Album row. -/
def refIntegrity (db : DB) : Prop :=
  ∀ t ∈ db.tracks,
    (∃ a ∈ db.artists, a.id = t.artist_id) ∧ (∃ al ∈ db.albums, al.id = t.album_id)

/-- Concrete track metadata used to exercise the pipeline. -/
def sample_info : TrackInfo := ⟨"Song", "Artist", "Album", some "x1"⟩

/-- Concrete extractor output used to exercise the pipeline. -/
def sample_features : Features := ⟨120, 1, 0, 1⟩

/-- Concrete collaborator results for a fully successful run. -/
def sample_ext : External := ⟨some sample_info, some "audio_cache/f.mp3", some sample_features⟩

/-- Catalog holding four tracks with feature rows, so that the corpus for
a query on track 1 has exactly three entries. -/
def corpus3_db : DB :=
  { artists := [⟨1, "A", none⟩],
    albums := [⟨1, "Al", 1, none⟩],
    tracks := [⟨1, "t1", 1, 1, some "s1", none⟩, ⟨2, "t2", 1, 1, some "s2", none⟩,
               ⟨3, "t3", 1, 1, some "s3", none⟩, ⟨4, "t4", 1, 1, some "s4", none⟩],
    audio_features := [⟨1, 1, 1, 1, 120, 1⟩, ⟨2, 2, 2, 2, 100, 2⟩,
                       ⟨3, 3, 3, 3, 90, 3⟩, ⟨4, 4, 4, 4, 80, 4⟩],
    next_artist_id := 2, next_album_id := 2, next_track_id := 5, next_feature_id := 5 }

/-- Catalog already holding one track whose spotify_id column is null. -/
def nullid_db : DB :=
  { artists := [⟨1, "Artist", none⟩],
    albums := [⟨1, "Album", 1, none⟩],
    tracks := [⟨1, "Old", 1, 1, none, none⟩],
    audio_features := [⟨1, 1, 1, 1, 120, 1⟩],
    next_artist_id := 2, next_album_id := 2, next_track_id := 2, next_feature_id := 2 }

/-- Track metadata carrying a null external id. -/
def nullid_info : TrackInfo := ⟨"New", "Artist", "Album", none⟩

/-- A fixed ranked entry used to instantiate list-level statements. -/
def sample_entry : SimEntry := ⟨"t", "a", 0, 0, 0, 0, 0⟩

/-- The all-ones query vector used to instantiate ranking statements. -/
def ones4 : Fin 4 → ℝ := fun _ => 1

/-- A stored feature row whose four feature columns are all zero. -/
def zero_row : AudioFeatureRow := ⟨1, 1, 0, 0, 0, 0⟩

/-!
Helper lemmas about the embedded operations. These are shared
infrastructure; the claim theorems follow afterwards.
-/

/-- The dot product of a nonzero vector with itself is positive. -/
theorem dot4_self_pos (a : Fin 4 → ℝ) (ha : a ≠ 0) : 0 < dot4 a a := by
  obtain ⟨i, hi⟩ := Function.ne_iff.mp ha
  refine Finset.sum_pos' (fun j _ => mul_self_nonneg (a j))
    ⟨i, Finset.mem_univ i, mul_self_pos.mpr (by simpa using hi)⟩

/-- The dot product of a vector with itself is nonnegative. -/
theorem dot4_self_nonneg (a : Fin 4 → ℝ) : 0 ≤ dot4 a a :=
  Finset.sum_nonneg fun j _ => mul_self_nonneg (a j)

/-- Cauchy-Schwarz, upper side, for the 4-component dot product. -/
theorem dot4_le_norm_mul (a b : Fin 4 → ℝ) : dot4 a b ≤ norm4 a * norm4 b := by
  have h := Real.sum_mul_le_sqrt_mul_sqrt Finset.univ a b
  simpa [dot4, norm4, pow_two] using h

/-- Cauchy-Schwarz, lower side, for the 4-component dot product. -/
theorem neg_norm_mul_le_dot4 (a b : Fin 4 → ℝ) :
    -(norm4 a * norm4 b) ≤ dot4 a b := by
  have h := Real.sum_mul_le_sqrt_mul_sqrt Finset.univ a (fun i => -(b i))
  have hd : (∑ i, a i * -(b i)) = -dot4 a b := by
    simp [dot4, mul_neg, Finset.sum_neg_distrib]
  have hn : Real.sqrt (∑ i, (-(b i)) ^ 2) = norm4 b := by
    simp [norm4, dot4, pow_two]
  rw [hd] at h
  have hn' : Real.sqrt (∑ i, a i ^ 2) = norm4 a := by
    simp [norm4, dot4, pow_two]
  rw [hn', hn] at h
  linarith

/-- The artist upsert step keeps every other table and counter unchanged,
only ever appends to the artists table, and returns the id of an artist
row present in its output state. -/
theorem upsert_artist_spec (n : String) (db : DB) :
    (∃ a ∈ (upsert_artist n db).2.artists, a.id = (upsert_artist n db).1) ∧
    (∀ a ∈ db.artists, a ∈ (upsert_artist n db).2.artists) ∧
    (upsert_artist n db).2.albums = db.albums ∧
    (upsert_artist n db).2.tracks = db.tracks ∧
    (upsert_artist n db).2.audio_features = db.audio_features ∧
    (upsert_artist n db).2.next_track_id = db.next_track_id ∧
    (upsert_artist n db).2.next_feature_id = db.next_feature_id := by
  unfold upsert_artist
  cases h : db.artists.find? (fun a => a.name == n) with
  | none =>
      refine ⟨⟨⟨db.next_artist_id, n, none⟩, ?_, rfl⟩, ?_, rfl, rfl, rfl, rfl, rfl⟩
      · simp
      · intro a ha; simp [ha]
  | some a =>
      exact ⟨⟨a, List.mem_of_find?_eq_some h, rfl⟩, fun x hx => hx, rfl, rfl, rfl, rfl, rfl⟩

/-- The album upsert step keeps every other table and counter unchanged,
only ever appends to the albums table, and returns the id of an album
row present in its output state. -/
theorem upsert_album_spec (n : String) (aid : Nat) (db : DB) :
    (∃ al ∈ (upsert_album n aid db).2.albums, al.id = (upsert_album n aid db).1) ∧
    (∀ al ∈ db.albums, al ∈ (upsert_album n aid db).2.albums) ∧
    (upsert_album n aid db).2.artists = db.artists ∧
    (upsert_album n aid db).2.tracks = db.tracks ∧
    (upsert_album n aid db).2.audio_features = db.audio_features ∧
    (upsert_album n aid db).2.next_track_id = db.next_track_id ∧
    (upsert_album n aid db).2.next_feature_id = db.next_feature_id := by
  unfold upsert_album
  cases h : db.albums.find? (fun al => al.name == n && al.artist_id == aid) with
  | none =>
      refine ⟨⟨⟨db.next_album_id, n, aid, none⟩, ?_, rfl⟩, ?_, rfl, rfl, rfl, rfl, rfl⟩
      · simp
      · intro al hal; simp [hal]
  | some al =>
      exact ⟨⟨al, List.mem_of_find?_eq_some h, rfl⟩, fun x hx => hx, rfl, rfl, rfl, rfl, rfl⟩

/-- The loop of find_similar_songs succeeds and produces one entry per
corpus row whenever every corpus row points at an existing track and
every track points at an existing artist. -/
theorem build_entries_total (db : DB) (v : Fin 4 → ℝ) :
    ∀ fs : List AudioFeatureRow,
      (∀ f ∈ fs, ∃ t ∈ db.tracks, t.id = f.track_id) →
      (∀ t ∈ db.tracks, ∃ a ∈ db.artists, a.id = t.artist_id) →
      ∃ l, build_entries db v fs = some l ∧ l.length = fs.length := by
  intro fs
  induction fs with
  | nil => exact fun _ _ => ⟨[], rfl, rfl⟩
  | cons f rest ih =>
      intro h1 h2
      obtain ⟨t, ht, hid⟩ := h1 f (List.mem_cons_self f rest)
      have hfind : db.tracks.find? (fun tr => tr.id == f.track_id) ≠ none := by
        intro hnone
        rw [List.find?_eq_none] at hnone
        exact absurd (by simp [hid]) (hnone t ht)
      cases hft : db.tracks.find? (fun tr => tr.id == f.track_id) with
      | none => exact absurd hft hfind
      | some t' =>
          have ht' : t' ∈ db.tracks := List.mem_of_find?_eq_some hft
          obtain ⟨a, ha, haid⟩ := h2 t' ht'
          have hafind : db.artists.find? (fun x => x.id == t'.artist_id) ≠ none := by
            intro hnone
            rw [List.find?_eq_none] at hnone
            exact absurd (by simp [haid]) (hnone a ha)
          cases hfa : db.artists.find? (fun x => x.id == t'.artist_id) with
          | none => exact absurd hfa hafind
          | some a' =>
              obtain ⟨l, hl, hlen⟩ :=
                ih (fun g hg => h1 g (List.mem_cons_of_mem f hg)) h2
              refine ⟨⟨t'.name, a'.name, cosine_similarity v (toVector f),
                        f.energy, f.valence, f.tempo, f.danceability⟩ :: l, ?_, ?_⟩
              · simp only [build_entries, hft, hfa, hl, Option.bind_eq_bind,
                  Option.some_bind]
              · simp [hlen]

/-- The track-level lookup inside store_in_database runs on a tracks
table that the artist and album upserts have not touched. -/
theorem store_tracks_untouched (track_info : TrackInfo) (db : DB) :
    (upsert_album track_info.album (upsert_artist track_info.artist db).1
      (upsert_artist track_info.artist db).2).2.tracks = db.tracks := by
  rw [(upsert_album_spec track_info.album (upsert_artist track_info.artist db).1
        (upsert_artist track_info.artist db).2).2.2.2.1,
      (upsert_artist_spec track_info.artist db).2.2.2.1]

/-- On the duplicate path, store_in_database returns the id of the first
matching track row and the untouched catalog. -/
theorem store_dup_spec (track_info : TrackInfo) (features : Features) (db : DB)
    (t : TrackRow)
    (h : db.tracks.find? (fun tr => tr.spotify_id == track_info.spotify_id) = some t) :
    store_in_database track_info features db = (some t.id, db) := by
  simp only [store_in_database]
  rw [store_tracks_untouched track_info db, h]

/-- On the creation path, store_in_database returns the next track id,
appends exactly one Track row and one AudioFeature row, and leaves the
artists and albums tables as the two upserts left them. -/
theorem store_create_spec (track_info : TrackInfo) (features : Features) (db : DB)
    (h : db.tracks.find? (fun tr => tr.spotify_id == track_info.spotify_id) = none) :
    (store_in_database track_info features db).1 = some db.next_track_id ∧
    (store_in_database track_info features db).2.tracks =
      db.tracks ++ [⟨db.next_track_id, track_info.name,
        (upsert_artist track_info.artist db).1,
        (upsert_album track_info.album (upsert_artist track_info.artist db).1
          (upsert_artist track_info.artist db).2).1,
        track_info.spotify_id, none⟩] ∧
    (store_in_database track_info features db).2.audio_features =
      db.audio_features ++ [⟨db.next_feature_id, db.next_track_id,
        features.energy, features.valence, features.tempo, features.danceability⟩] ∧
    (store_in_database track_info features db).2.artists =
      (upsert_album track_info.album (upsert_artist track_info.artist db).1
        (upsert_artist track_info.artist db).2).2.artists ∧
    (store_in_database track_info features db).2.albums =
      (upsert_album track_info.album (upsert_artist track_info.artist db).1
        (upsert_artist track_info.artist db).2).2.albums := by
  have hA := upsert_artist_spec track_info.artist db
  have hB := upsert_album_spec track_info.album (upsert_artist track_info.artist db).1
    (upsert_artist track_info.artist db).2
  have hnt : (upsert_album track_info.album (upsert_artist track_info.artist db).1
      (upsert_artist track_info.artist db).2).2.next_track_id = db.next_track_id := by
    rw [hB.2.2.2.2.2.1, hA.2.2.2.2.2.1]
  have hnf : (upsert_album track_info.album (upsert_artist track_info.artist db).1
      (upsert_artist track_info.artist db).2).2.next_feature_id = db.next_feature_id := by
    rw [hB.2.2.2.2.2.2, hA.2.2.2.2.2.2]
  have haf : (upsert_album track_info.album (upsert_artist track_info.artist db).1
      (upsert_artist track_info.artist db).2).2.audio_features = db.audio_features := by
    rw [hB.2.2.2.2.1, hA.2.2.2.2.1]
  simp only [store_in_database]
  rw [store_tracks_untouched track_info db, h]
  simp only [store_tracks_untouched track_info db, hnt, hnf, haf]
  simp

/-- C10: for every track id without a stored feature row, the similarity
query returns the empty list and raises no error. -/
theorem claim_C10_missing_feature_row (db : DB) (track_id limit : Nat)
    (h : ∀ f ∈ db.audio_features, f.track_id ≠ track_id) :
    find_similar_songs db track_id limit = some [] := by
  unfold find_similar_songs
  have hnone : db.audio_features.find? (fun f => f.track_id == track_id) = none := by
    rw [List.find?_eq_none]
    intro f hf
    simp [h f hf]
  rw [hnone]

/-- Witness for C10 at the empty catalog. -/
theorem claim_C10_witness : find_similar_songs DB.empty 1 5 = some [] :=
  claim_C10_missing_feature_row DB.empty 1 5 (by simp [DB.empty])

/-- C2: when a catalog write fails at any write boundary, either the
Track and its FeatureVector are both committed or the catalog state is
unchanged; in fact every failing run leaves the catalog unchanged. -/
theorem claim_C2_atomic_failure (fp : FailPoint) (track_info : TrackInfo)
    (features : Features) (db : DB) (h : fp ≠ FailPoint.noFail) :
    (store_in_database_at fp track_info features db).2 = db ∨
    (∃ tid, (store_in_database_at fp track_info features db).1 = some tid ∧
      (∃ t ∈ (store_in_database_at fp track_info features db).2.tracks, t.id = tid) ∧
      (∃ f ∈ (store_in_database_at fp track_info features db).2.audio_features,
        f.track_id = tid)) := by
  left
  cases fp with
  | noFail => exact absurd rfl h
  | artistFlush => rfl
  | albumFlush => rfl
  | trackFlush =>
      unfold store_in_database_at
      rcases hf : (upsert_album track_info.album (upsert_artist track_info.artist db).1
          (upsert_artist track_info.artist db).2).2.tracks.find?
            (fun t => t.spotify_id == track_info.spotify_id) with _ | t <;>
        simp [hf]
  | commit =>
      unfold store_in_database_at
      rcases hf : (upsert_album track_info.album (upsert_artist track_info.artist db).1
          (upsert_artist track_info.artist db).2).2.tracks.find?
            (fun t => t.spotify_id == track_info.spotify_id) with _ | t <;>
        simp [hf]

/-- Witness for C2: a commit failure on the empty catalog. -/
theorem claim_C2_witness :
    (store_in_database_at FailPoint.commit sample_info sample_features DB.empty).2 =
      DB.empty ∨
    (∃ tid,
      (store_in_database_at FailPoint.commit sample_info sample_features DB.empty).1 =
        some tid ∧
      (∃ t ∈ (store_in_database_at FailPoint.commit sample_info sample_features
        DB.empty).2.tracks, t.id = tid) ∧
      (∃ f ∈ (store_in_database_at FailPoint.commit sample_info sample_features
        DB.empty).2.audio_features, f.track_id = tid)) :=
  claim_C2_atomic_failure FailPoint.commit sample_info sample_features DB.empty
    (by decide)

/-- C8: top_k returns exactly the first k entries when at least k exist,
returns all entries when fewer than k exist, and a query over a corpus
of three with limit five returns exactly three entries. -/
theorem claim_C8_top_k :
    (∀ (ranked : List SimEntry) (k : Nat),
        (top_k ranked k).length = min k ranked.length ∧
        (∀ i : Nat, i < k → (top_k ranked k)[i]? = ranked[i]?) ∧
        (ranked.length < k → top_k ranked k = ranked)) ∧
    (∃ l, find_similar_songs corpus3_db 1 5 = some l ∧ l.length = 3) := by
  constructor
  · intro ranked k
    exact ⟨List.length_take k ranked,
      fun i hi => List.getElem?_take_of_lt hi,
      fun hlt => List.take_of_length_le (le_of_lt hlt)⟩
  · have h1 : ∀ f ∈ (corpus3_db.audio_features.filter fun f => !(f.track_id == 1)),
        ∃ t ∈ corpus3_db.tracks, t.id = f.track_id := by decide
    have h2 : ∀ t ∈ corpus3_db.tracks, ∃ a ∈ corpus3_db.artists, a.id = t.artist_id := by
      decide
    obtain ⟨l, hl, hlen⟩ :=
      build_entries_total corpus3_db (toVector ⟨1, 1, 1, 1, 120, 1⟩) _ h1 h2
    have step1 : find_similar_songs corpus3_db 1 5 =
        (build_entries corpus3_db (toVector ⟨1, 1, 1, 1, 120, 1⟩)
          (corpus3_db.audio_features.filter fun f => !(f.track_id == 1))).bind
          (fun sims => some (top_k
            (sims.mergeSort fun x y => decide (y.similarity ≤ x.similarity)) 5)) := rfl
    refine ⟨top_k ((l.mergeSort fun x y => decide (y.similarity ≤ x.similarity))) 5,
      ?_, ?_⟩
    · rw [step1, hl]; rfl
    · have hflen : (corpus3_db.audio_features.filter
          (fun f => !(f.track_id == 1))).length = 3 := rfl
      simp [top_k, List.length_take, List.length_mergeSort, hlen, hflen]

/-- Witness for C8 at a one-entry ranked list with k equal to two. -/
theorem claim_C8_witness :
    (top_k [sample_entry] 2).length = min 2 [sample_entry].length ∧
    (top_k [sample_entry] 2)[0]? = [sample_entry][0]? ∧
    top_k [sample_entry] 2 = [sample_entry] :=
  ⟨(claim_C8_top_k.1 [sample_entry] 2).1,
   (claim_C8_top_k.1 [sample_entry] 2).2.1 0 (by decide),
   (claim_C8_top_k.1 [sample_entry] 2).2.2 (by simp)⟩

/-- C3: the artist and album upserts are idempotent: a second call with
identical inputs returns the same id, changes nothing, and exactly one
matching row remains, given the catalog satisfies the uniqueness
invariant of at most one matching row beforehand. -/
theorem claim_C3_idempotent_upsert (n alname : String) (aid : Nat) (db dbA : DB)
    (h1 : (db.artists.filter (fun a => a.name == n)).length ≤ 1)
    (h2 : (dbA.albums.filter
      (fun al => al.name == alname && al.artist_id == aid)).length ≤ 1) :
    ((upsert_artist n (upsert_artist n db).2).1 = (upsert_artist n db).1 ∧
     (upsert_artist n (upsert_artist n db).2).2 = (upsert_artist n db).2 ∧
     ((upsert_artist n (upsert_artist n db).2).2.artists.filter
       (fun a => a.name == n)).length = 1) ∧
    ((upsert_album alname aid (upsert_album alname aid dbA).2).1 =
       (upsert_album alname aid dbA).1 ∧
     (upsert_album alname aid (upsert_album alname aid dbA).2).2 =
       (upsert_album alname aid dbA).2 ∧
     ((upsert_album alname aid (upsert_album alname aid dbA).2).2.albums.filter
       (fun al => al.name == alname && al.artist_id == aid)).length = 1) := by
  constructor
  · cases h : db.artists.find? (fun a => a.name == n) with
    | some a =>
        have hmem := List.mem_of_find?_eq_some h
        have hp := List.find?_some h
        have hcount : (db.artists.filter (fun a => a.name == n)).length = 1 := by
          have hin : a ∈ db.artists.filter (fun a => a.name == n) :=
            List.mem_filter.mpr ⟨hmem, hp⟩
          have hpos : 0 < (db.artists.filter (fun a => a.name == n)).length :=
            List.length_pos.mpr (List.ne_nil_of_mem hin)
          omega
        simp only [upsert_artist, h]
        exact ⟨trivial, trivial, hcount⟩
    | none =>
        have hnil : db.artists.filter (fun a => a.name == n) = [] :=
          List.filter_eq_nil_iff.mpr (fun a ha => (List.find?_eq_none.mp h) a ha)
        simp only [upsert_artist, h]
        refine ⟨?_, ?_, ?_⟩
        · simp [h]
        · simp [h]
        · simp [h, hnil, List.filter_append]
  · cases h : dbA.albums.find? (fun al => al.name == alname && al.artist_id == aid) with
    | some al =>
        have hmem := List.mem_of_find?_eq_some h
        have hp := List.find?_some h
        have hcount : (dbA.albums.filter
            (fun al => al.name == alname && al.artist_id == aid)).length = 1 := by
          have hin : al ∈ dbA.albums.filter
              (fun al => al.name == alname && al.artist_id == aid) :=
            List.mem_filter.mpr ⟨hmem, hp⟩
          have hpos : 0 < (dbA.albums.filter
              (fun al => al.name == alname && al.artist_id == aid)).length :=
            List.length_pos.mpr (List.ne_nil_of_mem hin)
          omega
        simp only [upsert_album, h]
        exact ⟨trivial, trivial, hcount⟩
    | none =>
        have hnil : dbA.albums.filter
            (fun al => al.name == alname && al.artist_id == aid) = [] :=
          List.filter_eq_nil_iff.mpr (fun al hal => (List.find?_eq_none.mp h) al hal)
        simp only [upsert_album, h]
        refine ⟨?_, ?_, ?_⟩
        · simp [h]
        · simp [h]
        · simp [h, hnil, List.filter_append]

/-- Witness for C3 at the empty catalog. -/
theorem claim_C3_witness :
    ((upsert_artist "Artist" (upsert_artist "Artist" DB.empty).2).1 =
        (upsert_artist "Artist" DB.empty).1 ∧
     (upsert_artist "Artist" (upsert_artist "Artist" DB.empty).2).2 =
        (upsert_artist "Artist" DB.empty).2 ∧
     ((upsert_artist "Artist" (upsert_artist "Artist" DB.empty).2).2.artists.filter
        (fun a => a.name == "Artist")).length = 1) ∧
    ((upsert_album "Album" 1 (upsert_album "Album" 1 DB.empty).2).1 =
        (upsert_album "Album" 1 DB.empty).1 ∧
     (upsert_album "Album" 1 (upsert_album "Album" 1 DB.empty).2).2 =
        (upsert_album "Album" 1 DB.empty).2 ∧
     ((upsert_album "Album" 1 (upsert_album "Album" 1 DB.empty).2).2.albums.filter
        (fun al => al.name == "Album" && al.artist_id == 1)).length = 1) :=
  claim_C3_idempotent_upsert "Artist" "Album" 1 DB.empty DB.empty
    (by decide) (by decide)

/-- C4 counterexample: with a null external id and a catalog already
holding a track whose external id is null, store_in_database returns the
existing track id and creates no new Track row, against the claim that a
new row is always created. -/
theorem claim_C4_counterexample :
    store_in_database nullid_info sample_features nullid_db = (some 1, nullid_db) ∧
    nullid_db.tracks.length = 1 :=
  ⟨rfl, rfl⟩

/-- C4 as amended: with a null external id, the track lookup matches rows
whose external id column is null, so a new Track row is created exactly
when no such row exists; otherwise the first existing null-id track is
returned and nothing is created. -/
theorem claim_C4_amended (track_info : TrackInfo) (features : Features) (db : DB)
    (hnull : track_info.spotify_id = none) :
    (db.tracks.find? (fun t => t.spotify_id == none) = none →
      (store_in_database track_info features db).1 = some db.next_track_id ∧
      (store_in_database track_info features db).2.tracks =
        db.tracks ++ [⟨db.next_track_id, track_info.name,
          (upsert_artist track_info.artist db).1,
          (upsert_album track_info.album (upsert_artist track_info.artist db).1
            (upsert_artist track_info.artist db).2).1, none, none⟩]) ∧
    (∀ t : TrackRow, db.tracks.find? (fun t => t.spotify_id == none) = some t →
      store_in_database track_info features db = (some t.id, db)) := by
  constructor
  · intro h
    have h' : db.tracks.find?
        (fun tr => tr.spotify_id == track_info.spotify_id) = none := by
      rw [hnull]; exact h
    have := store_create_spec track_info features db h'
    rw [hnull] at this
    exact ⟨this.1, this.2.1⟩
  · intro t h
    have h' : db.tracks.find?
        (fun tr => tr.spotify_id == track_info.spotify_id) = some t := by
      rw [hnull]; exact h
    exact store_dup_spec track_info features db t h'

/-- Witness for C4 as amended, on the catalog that already holds a track
with a null external id. -/
theorem claim_C4_witness :
    store_in_database nullid_info sample_features nullid_db =
      (some (1 : Nat), nullid_db) :=
  (claim_C4_amended nullid_info sample_features nullid_db rfl).2
    ⟨1, "Old", 1, 1, none, none⟩ rfl

/-- C9: the ingestion write path preserves referential integrity: every
Track row visible after store_in_database, and after a full add_song
run, references an existing Artist row and an existing Album row. -/
theorem claim_C9_ref_integrity (track_info : TrackInfo) (features : Features)
    (ext : External) (db : DB) (h : refIntegrity db) :
    refIntegrity (store_in_database track_info features db).2 ∧
    refIntegrity (add_song ext db).db := by
  have key : ∀ (ti : TrackInfo) (fe : Features),
      refIntegrity (store_in_database ti fe db).2 := by
    intro ti fe
    cases hf : db.tracks.find? (fun tr => tr.spotify_id == ti.spotify_id) with
    | some t => rw [store_dup_spec ti fe db t hf]; exact h
    | none =>
        obtain ⟨hid, htr, haf, hart, halb⟩ := store_create_spec ti fe db hf
        have hA := upsert_artist_spec ti.artist db
        have hB := upsert_album_spec ti.album (upsert_artist ti.artist db).1
          (upsert_artist ti.artist db).2
        intro t ht
        rw [htr] at ht
        rw [hart, halb, hB.2.2.1]
        rcases List.mem_append.mp ht with hold | hnewmem
        · obtain ⟨⟨a, ha, haid⟩, ⟨al, hal, halid⟩⟩ := h t hold
          exact ⟨⟨a, hA.2.1 a ha, haid⟩,
                 ⟨al, hB.2.1 al (by rw [hA.2.2.1]; exact hal), halid⟩⟩
        · have ht' : t = ⟨db.next_track_id, ti.name,
              (upsert_artist ti.artist db).1,
              (upsert_album ti.album (upsert_artist ti.artist db).1
                (upsert_artist ti.artist db).2).1, ti.spotify_id, none⟩ := by
            simpa using hnewmem
          subst ht'
          exact ⟨by simpa using hA.1, by simpa using hB.1⟩
  refine ⟨key track_info features, ?_⟩
  cases hs : ext.search with
  | none => simpa [add_song, hs] using h
  | some ti =>
      cases hd : ext.download with
      | none => simpa [add_song, hs, hd] using h
      | some fp =>
          cases he : ext.extract with
          | none => simpa [add_song, hs, hd, he] using h
          | some fe => simpa [add_song, hs, hd, he] using key ti fe

/-- Witness for C9 at the empty catalog. -/
theorem claim_C9_witness :
    refIntegrity (store_in_database sample_info sample_features DB.empty).2 ∧
    refIntegrity (add_song sample_ext DB.empty).db :=
  claim_C9_ref_integrity sample_info sample_features sample_ext DB.empty
    (by intro t ht; simp [DB.empty] at ht)

/-- C1 counterexample: ingesting the same external id twice with every
collaborator succeeding still performs audio download and feature
extraction on the second run; the duplicate check only happens at the
store stage, after extraction. The second run does return the existing
track id. -/
theorem claim_C1_counterexample :
    (add_song sample_ext (add_song sample_ext DB.empty).db).extracted = true ∧
    (add_song sample_ext (add_song sample_ext DB.empty).db).stored_track =
      (add_song sample_ext DB.empty).stored_track :=
  ⟨rfl, rfl⟩

/-- C1 as amended: ingesting the same external id twice results in
exactly one matching Track row and one FeatureVector row; the second run
returns the existing track id and writes nothing, but it still performs
feature extraction, because the duplicate check happens in the store
stage after acquisition and extraction. -/
theorem claim_C1_amended (track_info : TrackInfo) (filepath : String)
    (features : Features) (db : DB) (e : String)
    (hid : track_info.spotify_id = some e)
    (hnew : ∀ t ∈ db.tracks, t.spotify_id ≠ some e)
    (hwf : ∀ f ∈ db.audio_features, f.track_id < db.next_track_id) :
    let ext : External := ⟨some track_info, some filepath, some features⟩
    let r1 := add_song ext db
    let r2 := add_song ext r1.db
    r1.stored_track = some db.next_track_id ∧
    r2.stored_track = some db.next_track_id ∧
    r2.db = r1.db ∧
    r2.extracted = true ∧
    (r1.db.tracks.filter (fun t => t.spotify_id == some e)).length = 1 ∧
    (r1.db.audio_features.filter
      (fun f => f.track_id == db.next_track_id)).length = 1 := by
  intro ext r1 r2
  have hf : db.tracks.find? (fun tr => tr.spotify_id == track_info.spotify_id) = none := by
    rw [List.find?_eq_none]
    intro t ht
    rw [hid]
    simp [hnew t ht]
  obtain ⟨h1, htr, haf, _, _⟩ := store_create_spec track_info features db hf
  have hr1db : r1.db = (store_in_database track_info features db).2 := rfl
  have hr1 : r1.stored_track = some db.next_track_id := h1
  have hT : r1.db.tracks = db.tracks ++ [⟨db.next_track_id, track_info.name,
      (upsert_artist track_info.artist db).1,
      (upsert_album track_info.album (upsert_artist track_info.artist db).1
        (upsert_artist track_info.artist db).2).1,
      track_info.spotify_id, none⟩] := by rw [hr1db, htr]
  have hfind2 : r1.db.tracks.find?
      (fun tr => tr.spotify_id == track_info.spotify_id) =
      some ⟨db.next_track_id, track_info.name,
        (upsert_artist track_info.artist db).1,
        (upsert_album track_info.album (upsert_artist track_info.artist db).1
          (upsert_artist track_info.artist db).2).1,
        track_info.spotify_id, none⟩ := by
    rw [hT, List.find?_append, hf]
    simp [List.find?]
  have hdup := store_dup_spec track_info features r1.db _ hfind2
  have hr2 : r2 = ⟨(store_in_database track_info features r1.db).2, true,
      (store_in_database track_info features r1.db).1⟩ := rfl
  refine ⟨hr1, ?_, ?_, ?_, ?_, ?_⟩
  · rw [hr2]; rw [hdup]
  · rw [hr2]; rw [hdup]
  · rw [hr2]
  · rw [hT, List.filter_append]
    have hnil : db.tracks.filter (fun t => t.spotify_id == some e) = [] :=
      List.filter_eq_nil_iff.mpr (fun t ht => by simp [hnew t ht])
    rw [hnil]
    simp [hid]
  · rw [hr1db, haf, List.filter_append]
    have hnil : db.audio_features.filter
        (fun f => f.track_id == db.next_track_id) = [] :=
      List.filter_eq_nil_iff.mpr (fun f hfm => by
        have := hwf f hfm
        simp
        omega)
    rw [hnil]
    simp

/-- Witness for C1 as amended: two runs over the empty catalog. -/
theorem claim_C1_witness :
    (let ext : External := ⟨some sample_info, some "audio_cache/f.mp3",
        some sample_features⟩
     let r1 := add_song ext DB.empty
     let r2 := add_song ext r1.db
     r1.stored_track = some DB.empty.next_track_id ∧
     r2.stored_track = some DB.empty.next_track_id ∧
     r2.db = r1.db ∧
     r2.extracted = true ∧
     (r1.db.tracks.filter (fun t => t.spotify_id == some "x1")).length = 1 ∧
     (r1.db.audio_features.filter
       (fun f => f.track_id == DB.empty.next_track_id)).length = 1) :=
  claim_C1_amended sample_info "audio_cache/f.mp3" sample_features DB.empty "x1"
    rfl (by simp [DB.empty]) (by simp [DB.empty])

/-- C5: similarity scores between nonzero 4-component vectors lie in
[-1, 1], and the score of a nonzero vector against itself equals 1 up to
the stated tolerance. -/
theorem claim_C5_cosine_bounds (a b : Fin 4 → ℝ) (ha : a ≠ 0) (hb : b ≠ 0) :
    (-1 ≤ cosine_similarity a b ∧ cosine_similarity a b ≤ 1) ∧
    |cosine_similarity a a - 1| ≤ 1e-9 := by
  have hpa : 0 < norm4 a := Real.sqrt_pos.mpr (dot4_self_pos a ha)
  have hpb : 0 < norm4 b := Real.sqrt_pos.mpr (dot4_self_pos b hb)
  have hprod : 0 < norm4 a * norm4 b := mul_pos hpa hpb
  have hab : cosine_similarity a b = dot4 a b / (norm4 a * norm4 b) := by
    unfold cosine_similarity
    rw [if_neg (ne_of_gt hpa), if_neg (ne_of_gt hpb)]
  have h1 : cosine_similarity a a = 1 := by
    have haa : cosine_similarity a a = dot4 a a / (norm4 a * norm4 a) := by
      unfold cosine_similarity
      rw [if_neg (ne_of_gt hpa)]
    rw [haa]
    unfold norm4
    rw [Real.mul_self_sqrt (dot4_self_nonneg a)]
    exact div_self (ne_of_gt (dot4_self_pos a ha))
  refine ⟨⟨?_, ?_⟩, ?_⟩
  · rw [hab, le_div_iff₀ hprod]
    have := neg_norm_mul_le_dot4 a b
    linarith
  · rw [hab, div_le_one hprod]
    exact dot4_le_norm_mul a b
  · rw [h1]
    norm_num

/-- Witness for C5 at the all-ones vector. -/
theorem claim_C5_witness :
    (-1 ≤ cosine_similarity ones4 ones4 ∧ cosine_similarity ones4 ones4 ≤ 1) ∧
    |cosine_similarity ones4 ones4 - 1| ≤ 1e-9 :=
  claim_C5_cosine_bounds ones4 ones4
    (fun h => one_ne_zero (congrFun h 0)) (fun h => one_ne_zero (congrFun h 0))

/-- C6: comparing against a feature row whose four components are zero
yields score 0 in both argument positions, and the ranking call cannot
fail as long as corpus rows reference existing tracks and tracks
reference existing artists. -/
theorem claim_C6_zero_vector :
    (∀ (v : Fin 4 → ℝ) (f : AudioFeatureRow),
        f.energy = 0 → f.valence = 0 → f.tempo = 0 → f.danceability = 0 →
        cosine_similarity v (toVector f) = 0 ∧
        cosine_similarity (toVector f) v = 0) ∧
    (∀ (db : DB) (track_id limit : Nat),
        (∀ f ∈ db.audio_features, ∃ t ∈ db.tracks, t.id = f.track_id) →
        (∀ t ∈ db.tracks, ∃ a ∈ db.artists, a.id = t.artist_id) →
        find_similar_songs db track_id limit ≠ none) := by
  constructor
  · intro v f he hv ht hd
    have hzero : ∀ i : Fin 4, toVector f i = 0 := by
      intro i
      fin_cases i <;> simp [toVector, he, hv, ht, hd]
    have hnum1 : dot4 v (toVector f) = 0 := by
      unfold dot4
      exact Finset.sum_eq_zero fun i _ => by rw [hzero i, mul_zero]
    have hnum2 : dot4 (toVector f) v = 0 := by
      unfold dot4
      exact Finset.sum_eq_zero fun i _ => by rw [hzero i, zero_mul]
    constructor
    · unfold cosine_similarity
      rw [hnum1, zero_div]
    · unfold cosine_similarity
      rw [hnum2, zero_div]
  · intro db track_id limit h1 h2
    unfold find_similar_songs
    cases hfc : db.audio_features.find? (fun f => f.track_id == track_id) with
    | none => simp
    | some current =>
        have h1' : ∀ f ∈ db.audio_features.filter (fun f => !(f.track_id == track_id)),
            ∃ t ∈ db.tracks, t.id = f.track_id :=
          fun f hf => h1 f (List.mem_of_mem_filter hf)
        obtain ⟨l, hl, _⟩ := build_entries_total db (toVector current) _ h1' h2
        cases hemp : (db.audio_features.filter
            (fun f => !(f.track_id == track_id))).isEmpty <;>
          simp [hemp, hl]

/-- Witness for C6 at an all-zero feature row and the empty catalog. -/
theorem claim_C6_witness :
    (cosine_similarity ones4 (toVector zero_row) = 0 ∧
     cosine_similarity (toVector zero_row) ones4 = 0) ∧
    find_similar_songs DB.empty 1 5 ≠ none :=
  ⟨claim_C6_zero_vector.1 ones4 zero_row rfl rfl rfl rfl,
   claim_C6_zero_vector.2 DB.empty 1 5 (by simp [DB.empty]) (by simp [DB.empty])⟩

/-- C7: every ranked list the similarity query returns is sorted by
score in non-increasing order, and each corpus vector is built in the
fixed component order energy, valence, tempo over 200, danceability,
with no clamping. -/
theorem claim_C7_rank_order :
    (∀ (db : DB) (track_id limit : Nat) (l : List SimEntry),
        find_similar_songs db track_id limit = some l →
        l.Pairwise (fun x y => y.similarity ≤ x.similarity)) ∧
    (∀ f : AudioFeatureRow, toVector f =
      ![(f.energy : ℝ), (f.valence : ℝ), (f.tempo : ℝ) / 200,
        (f.danceability : ℝ)]) := by
  constructor
  · intro db track_id limit l h
    unfold find_similar_songs at h
    cases hfc : db.audio_features.find? (fun f => f.track_id == track_id) with
    | none =>
        rw [hfc] at h
        cases h
        exact List.Pairwise.nil
    | some current =>
        rw [hfc] at h
        dsimp only [] at h
        cases hemp : (db.audio_features.filter
            (fun f => !(f.track_id == track_id))).isEmpty with
        | true =>
            rw [hemp] at h
            simp at h
            subst h
            exact List.Pairwise.nil
        | false =>
            rw [hemp] at h
            simp only [Bool.false_eq_true, if_false] at h
            cases hb : build_entries db (toVector current)
                (db.audio_features.filter (fun f => !(f.track_id == track_id))) with
            | none => rw [hb] at h; simp at h
            | some sims =>
                rw [hb] at h
                simp only [Option.bind_eq_bind, Option.some_bind,
                  Option.some_inj] at h
                subst h
                have hs := @List.sorted_mergeSort SimEntry
                  (fun x y => decide (y.similarity ≤ x.similarity))
                  (fun x y z h1 h2 => decide_eq_true
                    (le_trans (of_decide_eq_true h2) (of_decide_eq_true h1)))
                  (fun x y => by
                    rcases le_total y.similarity x.similarity with hle | hle <;>
                      simp [hle])
                  sims
                have hs' : (sims.mergeSort
                    (fun x y => decide (y.similarity ≤ x.similarity))).Pairwise
                    (fun x y => y.similarity ≤ x.similarity) :=
                  hs.imp fun hxy => of_decide_eq_true hxy
                exact List.Pairwise.sublist (List.take_sublist limit _) hs'
  · intro f
    rfl

/-- Witness for C7 at the empty catalog. -/
theorem claim_C7_witness :
    ([] : List SimEntry).Pairwise (fun x y => y.similarity ≤ x.similarity) :=
  claim_C7_rank_order.1 DB.empty 0 5 [] rfl

end MusicSim
